import Mathlib

/-!
Shallow embedding of the progress-signal relay of the temporal-a2a-gateway
repository: the per-task progress log populated by `add_progress_signal`,
the gateway wire updates built by `_signal_gateway` / `StreamingContext.send_chunk`,
and the workflow run functions of `src/workers/echo_worker.py`,
`src/python-sdk/temporal_a2a_sdk/workflows.py` and
`src/python-sdk/temporal_a2a_sdk/workflow_bridge.py`.

Python floats are modelled as rationals (every progress value in the source is
a small decimal), dictionaries as structures, and the ISO timestamp strings
returned by `workflow.now()` are not modelled (no verified property mentions
them).  Exceptions raised by signal delivery are modelled by an explicit
`Except String Unit` outcome per delivery attempt.
-/

namespace A2A

/-- An artifact part, `ArtifactPart` of echo_worker.py: a `kind` discriminator
and an optional text payload (the file/data payloads never occur in the
verified code paths). -/
structure ArtifactPart where
  kind : String
  text : Option String
  deriving DecidableEq

/-- The part built by `Artifact.add_text_part` / `{"kind": "text", "text": t}`. -/
def textPart (t : String) : ArtifactPart :=
  { kind := "text", text := some t }

/-- An A2A artifact: `artifactId`, `name`, optional `description`, ordered parts.
Artifacts sent to the gateway omit the description key, modelled by `none`. -/
structure Artifact where
  artifactId : String
  name : String
  description : Option String
  parts : List ArtifactPart
  deriving DecidableEq

/-- A task result dict: artifacts plus an optional error entry.  `none` models
the absent `error` key (`TaskResult.to_dict` omits a falsy error). -/
structure TaskResult where
  artifacts : List Artifact
  error : Option String
  deriving DecidableEq

/-- The normalisation performed by `TaskResult.to_dict`: an empty error string
is falsy in Python, so the `error` key is omitted. -/
def errOpt (e : String) : Option String :=
  if e = "" then none else some e

/-- A progress signal dict as appended by `add_progress_signal`: taskId,
status, progress, optional result payload, error string (empty by default). -/
structure ProgressSignal where
  taskId : String
  status : String
  progress : ℚ
  result : Option TaskResult
  error : String
  deriving DecidableEq

/-- The append performed by `add_progress_signal`: an unconditional
`self.progress_signals.append(signal_dict)`. -/
def addProgressSignal (log : List ProgressSignal) (s : ProgressSignal) :
    List ProgressSignal :=
  log ++ [s]

/-- A terminal task status: completed, failed or canceled. -/
def isTerminal (status : String) : Bool :=
  status = "completed" || status = "failed" || status = "canceled"

/-- The update dict built inside `_signal_gateway`
(workflows.py lines 136-143, echo_worker.py lines 227-236):
`append` is computed as `progress > 0.1` and `lastChunk` as
`status == "completed"`. -/
structure GatewayUpdate where
  taskId : String
  status : String
  progress : ℚ
  append : Bool
  lastChunk : Bool
  artifact : Option Artifact
  deriving DecidableEq

/-- Build the `_signal_gateway` update dict. -/
def mkGatewayUpdate (taskId status : String) (progress : ℚ)
    (artifact : Option Artifact) : GatewayUpdate :=
  { taskId := taskId
    status := status
    progress := progress
    append := decide ((1 : ℚ)/10 < progress)
    lastChunk := decide (status = "completed")
    artifact := artifact }

/-- The `A2AProgressUpdate` dict built by `StreamingContext.send_chunk`
(streaming.py lines 46-53): status is always `"working"`, `append` is
`chunk_count > 1` and `last_chunk` is always `False`. -/
def sendChunkUpdate (taskId artifactId artifactName chunk : String)
    (chunkCount : ℕ) : GatewayUpdate :=
  { taskId := taskId
    status := "working"
    progress := 0
    append := decide (1 < chunkCount)
    lastChunk := false
    artifact := some { artifactId := artifactId, name := artifactName,
                       description := none, parts := [textPart chunk] } }

/-- Python `str.split()` with no separator: split on runs of whitespace,
discarding empty pieces.  Auxiliary recursion over the character list with an
accumulator for the current word (in reverse). -/
def splitWsAux : List Char → List Char → List String
  | [], [] => []
  | [], acc => [String.mk acc.reverse]
  | c :: cs, acc =>
    if c.isWhitespace then
      match acc with
      | [] => splitWsAux cs []
      | _ => String.mk acc.reverse :: splitWsAux cs []
    else
      splitWsAux cs (c :: acc)

/-- Python `s.split()` (whitespace split, as used for the word-by-word
progressive build in echo_worker.py line 310 and echo_logic.py). -/
def pySplit (s : String) : List String :=
  splitWsAux s.data []

/-- The `current_text` accumulator of the progressive loop
(echo_worker.py lines 313-319): `current_text = word` for the first word and
`current_text += " " + word` afterwards, so after `k` words it equals the
first `k` words joined by single spaces. -/
def currentText (words : List String) (k : ℕ) : String :=
  String.intercalate " " (words.take k)

/-- A message part of the incoming task input, modelled by the optional value
of its `"text"` key (`none` when the part dict has no `"text"` key). -/
abbrev MessagePart := Option String

/-- The extraction loop over `message_data["parts"]`: take the text of the
first part that has a `"text"` key, then `break` (echo_worker.py
lines 296-300). -/
def firstTextField : List MessagePart → Option String
  | [] => none
  | some t :: _ => some t
  | none :: rest => firstTextField rest

/-- Extract `user_message` from the task input: the first `"text"` value of
the parts when the input is a dict with `"parts"`, with the fallback
`if not user_message: user_message = "Hello"` (echo_worker.py
lines 293-304). -/
def extractUserMessage (msgParts : Option (List MessagePart)) : String :=
  let m :=
    match msgParts with
    | some ps => (firstTextField ps).getD ""
    | none => ""
  if m = "" then "Hello" else m

/-- The `echo_activity` of echo_worker.py line 111. -/
def echoActivity (messageContent : String) : String :=
  "Echo: " ++ messageContent

/-- The `artifact-{task_id.split('-')[0][:8]}` identifier kept constant for a
whole streaming session by `StreamingContext` (streaming.py line 22) and by
`AgentStreamingWorkflow.run` (workflows.py lines 218-219). -/
def sdkArtifactId (taskId : String) : String :=
  "artifact-" ++ ((taskId.splitOn "-").headD "").take 8

/-- The outcome of one attempt to deliver a signal to the gateway workflow:
`Except.ok ()` when `handle.signal(...)` returns, `Except.error e` when it
raises.  A run function receives the outcome of the k-th attempt as
`deliver k`. -/
abbrev DeliveryOutcome := Except String Unit

/-- Workflow-side mutable state of a streaming run: the per-task progress log
(`self.progress_signals`), the updates delivered to the gateway workflow, and
the number of delivery attempts made so far. -/
structure StreamState where
  log : List ProgressSignal
  sent : List GatewayUpdate
  attempts : ℕ
  deriving DecidableEq

/-- The initial workflow state: empty log, nothing sent. -/
def initState : StreamState :=
  { log := [], sent := [], attempts := 0 }

/-- Effect of `add_progress_signal` on the workflow state. -/
def logSignal (st : StreamState) (taskId status : String) (progress : ℚ)
    (result : Option TaskResult) (error : String) : StreamState :=
  { st with
    log := addProgressSignal st.log
      { taskId := taskId, status := status, progress := progress,
        result := result, error := error } }

/-- Effect of one `_signal_gateway` call: the whole body sits in a
`try`/`except Exception` block, so a raising delivery only logs the error
(`logger.error`) and leaves the workflow state otherwise untouched; a
successful delivery records the update on the gateway side. -/
def signalGateway (outcome : DeliveryOutcome) (st : StreamState)
    (u : GatewayUpdate) : StreamState :=
  match outcome with
  | Except.ok _ => { st with sent := st.sent ++ [u], attempts := st.attempts + 1 }
  | Except.error _ => { st with attempts := st.attempts + 1 }

/-- The `if gateway_workflow_id:` guard around every `_signal_gateway` call:
without a gateway workflow id nothing is signalled. -/
def gwSignal (gw : Option String) (outcome : DeliveryOutcome)
    (st : StreamState) (u : GatewayUpdate) : StreamState :=
  match gw with
  | none => st
  | some _ => signalGateway outcome st u

/-- The output of a workflow run: final progress log, updates received by the
gateway, and the dict returned by `run`. -/
structure RunOutput where
  log : List ProgressSignal
  sent : List GatewayUpdate
  result : TaskResult
  deriving DecidableEq

/-- The run of `EchoTaskWorkflow` (echo_worker.py lines 149-213).  `act` is
the outcome of `workflow.execute_activity(echo_activity, user_message, ...)`;
a raising activity reaches the `except` branch, which appends a failed signal
and returns `TaskResult(error=error_msg).to_dict()`.  This workflow never
signals the gateway. -/
def runEcho (taskId : String) (msgParts : Option (List MessagePart))
    (act : String → Except String String) : RunOutput :=
  let l1 := addProgressSignal []
    { taskId := taskId, status := "working", progress := 1/10,
      result := none, error := "" }
  let userMessage := extractUserMessage msgParts
  let l2 := addProgressSignal l1
    { taskId := taskId, status := "working", progress := 1/2,
      result := none, error := "" }
  match act userMessage with
  | Except.ok echoResponse =>
    let echoArtifact : Artifact :=
      { artifactId := "echo-" ++ taskId, name := "Echo Response",
        description := some "Echoed user message",
        parts := [textPart echoResponse] }
    let result : TaskResult := { artifacts := [echoArtifact], error := none }
    let l3 := addProgressSignal l2
      { taskId := taskId, status := "completed", progress := 1,
        result := some result, error := "" }
    { log := l3, sent := [], result := result }
  | Except.error e =>
    let l3 := addProgressSignal l2
      { taskId := taskId, status := "failed", progress := 0,
        result := none, error := e }
    { log := l3, sent := [], result := { artifacts := [], error := errOpt e } }

/-- Progress of the i-th progressive chunk (0-based) of
`StreamingEchoTaskWorkflow.run`: `0.3 + (0.6 * (i + 1) / len(words))`
(echo_worker.py line 322). -/
def echoChunkProgress (n : ℕ) (i : ℕ) : ℚ :=
  3/10 + (6/10) * ((i : ℚ) + 1) / (n : ℚ)

/-- The progressive artifact stored in the log for the i-th chunk
(echo_worker.py lines 325-330): a fresh per-chunk artifact id. -/
def echoChunkArtifact (taskId : String) (words : List String) (i : ℕ) :
    Artifact :=
  { artifactId := "streaming-echo-" ++ taskId ++ "-chunk-" ++ toString (i + 1)
    name := "Progressive Echo (chunk " ++ toString (i + 1) ++ "/" ++
      toString words.length ++ ")"
    description := some ("Progressive echo response - word " ++
      toString (i + 1) ++ " of " ++ toString words.length)
    parts := [textPart (currentText words (i + 1))] }

/-- The log entry appended for the i-th chunk of
`StreamingEchoTaskWorkflow.run` (echo_worker.py line 337). -/
def echoChunkSignal (taskId : String) (words : List String) (i : ℕ) :
    ProgressSignal :=
  { taskId := taskId, status := "working"
    progress := echoChunkProgress words.length i
    result := some { artifacts := [echoChunkArtifact taskId words i], error := none }
    error := "" }

/-- The artifact dict sent to the gateway for the i-th chunk
(echo_worker.py lines 341-345): same per-chunk id and name, no description. -/
def echoChunkGwArtifact (taskId : String) (words : List String) (i : ℕ) :
    Artifact :=
  { artifactId := (echoChunkArtifact taskId words i).artifactId
    name := (echoChunkArtifact taskId words i).name
    description := none
    parts := [textPart (currentText words (i + 1))] }

/-- The gateway update sent for the i-th chunk of
`StreamingEchoTaskWorkflow.run` (echo_worker.py line 346). -/
def echoChunkUpdate (taskId : String) (words : List String) (i : ℕ) :
    GatewayUpdate :=
  mkGatewayUpdate taskId "working" (echoChunkProgress words.length i)
    (some (echoChunkGwArtifact taskId words i))

/-- One iteration of the progressive loop of `StreamingEchoTaskWorkflow.run`
(echo_worker.py lines 314-349): append the working signal with the
progressive result, then signal the gateway when a gateway workflow id was
provided. -/
def echoChunkStep (taskId : String) (gw : Option String)
    (deliver : ℕ → DeliveryOutcome) (words : List String) (i : ℕ)
    (st : StreamState) : StreamState :=
  let st1 := logSignal st taskId "working" (echoChunkProgress words.length i)
    (some { artifacts := [echoChunkArtifact taskId words i], error := none }) ""
  gwSignal gw (deliver st1.attempts) st1 (echoChunkUpdate taskId words i)

/-- The `for i, word in enumerate(words)` loop, as a recursion over the
remaining word indices: `i` is the index of the next chunk, `rem` the number
of words still to process. -/
def echoChunksLoop (taskId : String) (gw : Option String)
    (deliver : ℕ → DeliveryOutcome) (words : List String) :
    ℕ → ℕ → StreamState → StreamState
  | _, 0, st => st
  | i, rem + 1, st =>
    echoChunksLoop taskId gw deliver words (i + 1) rem
      (echoChunkStep taskId gw deliver words i st)

/-- The final artifact of `StreamingEchoTaskWorkflow.run`
(echo_worker.py lines 352-357): a fresh `-final` artifact id carrying the raw
`echo_response` text. -/
def echoFinalArtifact (taskId echoResponse : String) : Artifact :=
  { artifactId := "streaming-echo-" ++ taskId ++ "-final"
    name := "Complete Echo Response"
    description := some "Final complete echo response"
    parts := [textPart echoResponse] }

/-- The final gateway update of `StreamingEchoTaskWorkflow.run`
(echo_worker.py lines 366-372): the `-final` artifact without description. -/
def echoFinalUpdate (taskId echoResponse : String) : GatewayUpdate :=
  mkGatewayUpdate taskId "completed" 1
    (some { artifactId := "streaming-echo-" ++ taskId ++ "-final",
            name := "Complete Echo Response", description := none,
            parts := [textPart echoResponse] })

/-- The run of `StreamingEchoTaskWorkflow` (echo_worker.py lines 269-387),
success path: initial working signal, word-by-word progressive chunks, final
completed signal, returning the final result.  `gw` is the optional
`gateway_workflow_id` extracted from the task input and `deliver` gives the
outcome of each gateway delivery attempt. -/
def runStreamingEcho (taskId : String) (gw : Option String)
    (msgParts : Option (List MessagePart))
    (deliver : ℕ → DeliveryOutcome) : RunOutput :=
  let st1 := logSignal initState taskId "working" (1/10) none ""
  let st2 := gwSignal gw (deliver st1.attempts) st1
    (mkGatewayUpdate taskId "working" (1/10) none)
  let userMessage := extractUserMessage msgParts
  let echoResponse := "Echo: " ++ userMessage
  let words := pySplit echoResponse
  let st3 := echoChunksLoop taskId gw deliver words 0 words.length st2
  let finalArtifact := echoFinalArtifact taskId echoResponse
  let result : TaskResult := { artifacts := [finalArtifact], error := none }
  let st4 := logSignal st3 taskId "completed" 1 (some result) ""
  let st5 := gwSignal gw (deliver st4.attempts) st4
    (echoFinalUpdate taskId echoResponse)
  { log := st5.log, sent := st5.sent, result := result }

/-- Progress of the k-th chunk (`chunk_count = k`, starting at 1) of
`AgentStreamingWorkflow.run` and `SDKBridgedStreamingWorkflow.run`:
`0.3 + (0.6 * min(chunk_count / 10, 0.9))` (workflows.py line 226,
workflow_bridge.py line 192). -/
def agentChunkProgress (k : ℕ) : ℚ :=
  3/10 + (6/10) * min ((k : ℚ) / 10) (9/10)

/-- The progressive artifact of `AgentStreamingWorkflow.run`
(workflows.py lines 229-233): the same `artifact-{short}` id for every
chunk. -/
def agentChunkArtifact (taskId chunk : String) : Artifact :=
  { artifactId := sdkArtifactId taskId
    name := "Progressive Response"
    description := none
    parts := [textPart chunk] }

/-- The gateway update for the k-th chunk of `AgentStreamingWorkflow.run`
(workflows.py line 239). -/
def agentChunkUpdate (taskId : String) (k : ℕ) (chunk : String) :
    GatewayUpdate :=
  mkGatewayUpdate taskId "working" (agentChunkProgress k)
    (some (agentChunkArtifact taskId chunk))

/-- One iteration of the chunk loop of `AgentStreamingWorkflow.run`
(workflows.py lines 221-239): `k` is the 1-based `chunk_count`. -/
def agentChunkStep (taskId : String) (gw : Option String)
    (deliver : ℕ → DeliveryOutcome) (k : ℕ) (chunk : String)
    (st : StreamState) : StreamState :=
  let art := agentChunkArtifact taskId chunk
  let st1 := logSignal st taskId "working" (agentChunkProgress k)
    (some { artifacts := [art], error := none }) ""
  gwSignal gw (deliver st1.attempts) st1 (agentChunkUpdate taskId k chunk)

/-- The `for chunk in chunks` loop of `AgentStreamingWorkflow.run`. -/
def agentChunksLoop (taskId : String) (gw : Option String)
    (deliver : ℕ → DeliveryOutcome) :
    ℕ → List String → StreamState → StreamState
  | _, [], st => st
  | k, chunk :: rest, st =>
    agentChunksLoop taskId gw deliver (k + 1) rest
      (agentChunkStep taskId gw deliver k chunk st)

/-- The final artifact of `AgentStreamingWorkflow.run`
(workflows.py lines 243-247): same stable id, text of the last chunk
(`chunks[-1] if chunks else ""`). -/
def agentFinalArtifact (taskId : String) (chunks : List String) : Artifact :=
  { artifactId := sdkArtifactId taskId
    name := "Complete Response"
    description := none
    parts := [textPart (chunks.getLast?.getD "")] }

/-- The run of `AgentStreamingWorkflow` (workflows.py lines 172-271) on the
streaming branch (`streaming_result.get("is_streaming")` true).  `act` is the
outcome of the streaming activity: `Except.ok chunks` yields the list of
collected chunks, `Except.error e` reaches the `except` branch, which appends
a failed signal and returns the literal `{"artifacts": [], "error": e}`
dict. -/
def runAgentStreaming (taskId : String) (gw : Option String)
    (act : Except String (List String))
    (deliver : ℕ → DeliveryOutcome) : RunOutput :=
  let st1 := logSignal initState taskId "working" (1/10) none ""
  let st2 := gwSignal gw (deliver st1.attempts) st1
    (mkGatewayUpdate taskId "working" (1/10) none)
  match act with
  | Except.error e =>
    let st3 := logSignal st2 taskId "failed" 0 none e
    { log := st3.log, sent := st3.sent,
      result := { artifacts := [], error := some e } }
  | Except.ok chunks =>
    let st3 := agentChunksLoop taskId gw deliver 1 chunks st2
    let finalArtifact := agentFinalArtifact taskId chunks
    let finalResult : TaskResult := { artifacts := [finalArtifact], error := none }
    let st4 := logSignal st3 taskId "completed" 1 (some finalResult) ""
    let st5 := gwSignal gw (deliver st4.attempts) st4
      (mkGatewayUpdate taskId "completed" 1 (some finalArtifact))
    { log := st5.log, sent := st5.sent, result := finalResult }

/-- The progressive artifact of `SDKBridgedStreamingWorkflow.run`
(workflow_bridge.py lines 195-199): a fresh per-chunk artifact id
`sdk-streaming-{task_id}-chunk-{chunk_count}`. -/
def bridgeChunkArtifact (taskId : String) (k : ℕ) (chunk : String) : Artifact :=
  { artifactId := "sdk-streaming-" ++ taskId ++ "-chunk-" ++ toString k
    name := "Progressive Response"
    description := none
    parts := [textPart chunk] }

/-- One iteration of the chunk loop of `SDKBridgedStreamingWorkflow.run`
(workflow_bridge.py lines 187-205). -/
def bridgeChunkStep (taskId : String) (gw : Option String)
    (deliver : ℕ → DeliveryOutcome) (k : ℕ) (chunk : String)
    (st : StreamState) : StreamState :=
  let art := bridgeChunkArtifact taskId k chunk
  let st1 := logSignal st taskId "working" (agentChunkProgress k)
    (some { artifacts := [art], error := none }) ""
  gwSignal gw (deliver st1.attempts) st1
    (mkGatewayUpdate taskId "working" (agentChunkProgress k) (some art))

/-- The chunk loop of `SDKBridgedStreamingWorkflow.run`. -/
def bridgeChunksLoop (taskId : String) (gw : Option String)
    (deliver : ℕ → DeliveryOutcome) :
    ℕ → List String → StreamState → StreamState
  | _, [], st => st
  | k, chunk :: rest, st =>
    bridgeChunksLoop taskId gw deliver (k + 1) rest
      (bridgeChunkStep taskId gw deliver k chunk st)

/-- The run of `SDKBridgedStreamingWorkflow` (workflow_bridge.py
lines 149-243) on the streaming-generator branch.  After the completed signal
is appended, line 228 evaluates `if gateway_workflow_id and isinstance(result,
list)`: the local `result` is never assigned on this branch, so when a gateway
id is present the condition raises `NameError`, the `except` block appends a
failed signal (error text `nameErrMsg`, the `str(e)` of the `NameError`) and
the run returns the literal error dict instead of the final result. -/
def runBridgedStreaming (taskId : String) (gw : Option String)
    (chunks : List String) (deliver : ℕ → DeliveryOutcome)
    (nameErrMsg : String) : RunOutput :=
  let st1 := logSignal initState taskId "working" (1/10) none ""
  let st2 := gwSignal gw (deliver st1.attempts) st1
    (mkGatewayUpdate taskId "working" (1/10) none)
  let st3 := bridgeChunksLoop taskId gw deliver 1 chunks st2
  let finalArtifact : Artifact :=
    { artifactId := "sdk-streaming-" ++ taskId ++ "-final"
      name := "Complete Response"
      description := none
      parts := [textPart (chunks.getLast?.getD "")] }
  let finalResult : TaskResult := { artifacts := [finalArtifact], error := none }
  let st4 := logSignal st3 taskId "completed" 1 (some finalResult) ""
  match gw with
  | none => { log := st4.log, sent := st4.sent, result := finalResult }
  | some _ =>
    let st5 := logSignal st4 taskId "failed" 0 none nameErrMsg
    { log := st5.log, sent := st5.sent,
      result := { artifacts := [], error := some nameErrMsg } }

/-- The initial `working 0.1` log entry common to every workflow run. -/
def startSignal (taskId : String) : ProgressSignal :=
  { taskId := taskId, status := "working", progress := 1/10,
    result := none, error := "" }

/-- The initial `working 0.1` gateway update (no artifact). -/
def startUpdate (taskId : String) : GatewayUpdate :=
  mkGatewayUpdate taskId "working" (1/10) none

/-- The `echo_response` string computed by the streaming echo run. -/
def echoResponseOf (msgParts : Option (List MessagePart)) : String :=
  "Echo: " ++ extractUserMessage msgParts

/-- The word list of the streaming echo run. -/
def echoWords (msgParts : Option (List MessagePart)) : List String :=
  pySplit (echoResponseOf msgParts)

/-- The sequence of chunk log entries produced by the progressive loop of
`StreamingEchoTaskWorkflow.run`, for chunk indices `i, i+1, ..., i+rem-1`. -/
def echoChunkSignals (taskId : String) (words : List String) :
    ℕ → ℕ → List ProgressSignal
  | _, 0 => []
  | i, rem + 1 =>
    echoChunkSignal taskId words i :: echoChunkSignals taskId words (i + 1) rem

/-- The completed log entry of the streaming echo run. -/
def echoCompletedSignal (taskId : String)
    (msgParts : Option (List MessagePart)) : ProgressSignal :=
  { taskId := taskId, status := "completed", progress := 1,
    result := some { artifacts := [echoFinalArtifact taskId (echoResponseOf msgParts)],
                     error := none },
    error := "" }

/-- The chunk log entry of `AgentStreamingWorkflow.run` for `chunk_count = k`. -/
def agentChunkSignal (taskId : String) (k : ℕ) (chunk : String) :
    ProgressSignal :=
  { taskId := taskId, status := "working", progress := agentChunkProgress k,
    result := some { artifacts := [agentChunkArtifact taskId chunk], error := none },
    error := "" }

/-- The chunk log entries of `AgentStreamingWorkflow.run` for the chunk list,
starting at `chunk_count = k`. -/
def agentChunkSignals (taskId : String) : ℕ → List String → List ProgressSignal
  | _, [] => []
  | k, c :: rest =>
    agentChunkSignal taskId k c :: agentChunkSignals taskId (k + 1) rest

/-- The chunk log entry of `SDKBridgedStreamingWorkflow.run`. -/
def bridgeChunkSignal (taskId : String) (k : ℕ) (chunk : String) :
    ProgressSignal :=
  { taskId := taskId, status := "working", progress := agentChunkProgress k,
    result := some { artifacts := [bridgeChunkArtifact taskId k chunk], error := none },
    error := "" }

/-- The chunk log entries of `SDKBridgedStreamingWorkflow.run`. -/
def bridgeChunkSignals (taskId : String) : ℕ → List String → List ProgressSignal
  | _, [] => []
  | k, c :: rest =>
    bridgeChunkSignal taskId k c :: bridgeChunkSignals taskId (k + 1) rest

/-- The completed log entry of `AgentStreamingWorkflow.run`. -/
def agentCompletedSignal (taskId : String) (chunks : List String) :
    ProgressSignal :=
  { taskId := taskId, status := "completed", progress := 1,
    result := some { artifacts := [agentFinalArtifact taskId chunks], error := none },
    error := "" }

/-- The completed and failed log entries of `SDKBridgedStreamingWorkflow.run`. -/
def bridgeCompletedSignal (taskId : String) (chunks : List String) :
    ProgressSignal :=
  { taskId := taskId, status := "completed", progress := 1,
    result := some
      { artifacts := [{ artifactId := "sdk-streaming-" ++ taskId ++ "-final",
                        name := "Complete Response", description := none,
                        parts := [textPart (chunks.getLast?.getD "")] }],
        error := none },
    error := "" }

/-- The pairwise-adjacent relation of the progress-monotonicity property:
progress may only regress on a failure event. -/
def progressStep (a b : ProgressSignal) : Prop :=
  a.progress ≤ b.progress ∨ b.status = "failed"

/-- A delivery function where every gateway signal succeeds. -/
def okDeliver : ℕ → DeliveryOutcome := fun _ => Except.ok ()

/-- The snapshot-vs-stream agreement of a run: the last log entry is terminal
and the artifacts and error it carries coincide with the artifacts and error
of the dict the workflow returned (an absent error key reads as the empty
string, matching the signal's default `error=""`). -/
def terminalMatchesResult (out : RunOutput) : Prop :=
  match out.log.getLast? with
  | none => False
  | some s =>
      isTerminal s.status = true
        ∧ (s.result.map TaskResult.artifacts).getD [] = out.result.artifacts
        ∧ s.error = out.result.error.getD ""

lemma gwSignal_log (gw : Option String) (o : DeliveryOutcome)
    (st : StreamState) (u : GatewayUpdate) : (gwSignal gw o st u).log = st.log := by
  cases gw with
  | none => rfl
  | some g => cases o <;> rfl

lemma logSignal_sent (st : StreamState) (t s : String) (p : ℚ)
    (r : Option TaskResult) (e : String) : (logSignal st t s p r e).sent = st.sent := rfl

lemma gwSignal_sent_mem {gw : Option String} {o : DeliveryOutcome}
    {st : StreamState} {u x : GatewayUpdate}
    (hx : x ∈ (gwSignal gw o st u).sent) : x ∈ st.sent ∨ x = u := by
  cases gw with
  | none => exact Or.inl hx
  | some g =>
    cases o with
    | ok v =>
      rcases List.mem_append.1 hx with h | h
      · exact Or.inl h
      · exact Or.inr (List.mem_singleton.1 h)
    | error e => exact Or.inl hx

lemma gwSignal_sent_shape (gw : Option String) (o : DeliveryOutcome)
    (st : StreamState) (u : GatewayUpdate) :
    (gwSignal gw o st u).sent = st.sent ∨ (gwSignal gw o st u).sent = st.sent ++ [u] := by
  cases gw with
  | none => exact Or.inl rfl
  | some g => cases o with
    | ok v => exact Or.inr rfl
    | error e => exact Or.inl rfl

lemma echoChunkStep_log (taskId : String) (gw : Option String)
    (deliver : ℕ → DeliveryOutcome) (words : List String) (i : ℕ)
    (st : StreamState) :
    (echoChunkStep taskId gw deliver words i st).log
      = st.log ++ [echoChunkSignal taskId words i] := by
  unfold echoChunkStep
  rw [gwSignal_log]
  rfl

lemma echoChunksLoop_log (taskId : String) (gw : Option String)
    (deliver : ℕ → DeliveryOutcome) (words : List String) :
    ∀ (rem i : ℕ) (st : StreamState),
      (echoChunksLoop taskId gw deliver words i rem st).log
        = st.log ++ echoChunkSignals taskId words i rem := by
  intro rem
  induction rem with
  | zero => intro i st; simp [echoChunksLoop, echoChunkSignals]
  | succ n ih =>
    intro i st
    rw [echoChunksLoop, echoChunkSignals, ih, echoChunkStep_log]
    simp

lemma echoChunkStep_sent_mem {taskId : String} {gw : Option String}
    {deliver : ℕ → DeliveryOutcome} {words : List String} {i : ℕ}
    {st : StreamState} {x : GatewayUpdate}
    (hx : x ∈ (echoChunkStep taskId gw deliver words i st).sent) :
    x ∈ st.sent ∨ x = echoChunkUpdate taskId words i := by
  unfold echoChunkStep at hx
  rcases gwSignal_sent_mem hx with h | h
  · exact Or.inl h
  · exact Or.inr h

lemma echoChunksLoop_sent_mem {taskId : String} {gw : Option String}
    {deliver : ℕ → DeliveryOutcome} {words : List String} :
    ∀ {rem i : ℕ} {st : StreamState} {x : GatewayUpdate},
      x ∈ (echoChunksLoop taskId gw deliver words i rem st).sent →
      x ∈ st.sent ∨ ∃ j, x = echoChunkUpdate taskId words j := by
  intro rem
  induction rem with
  | zero => intro i st x hx; exact Or.inl hx
  | succ n ih =>
    intro i st x hx
    rw [echoChunksLoop] at hx
    rcases ih hx with h | h
    · rcases echoChunkStep_sent_mem h with h2 | h2
      · exact Or.inl h2
      · exact Or.inr ⟨i, h2⟩
    · exact Or.inr h

lemma agentChunkStep_log (taskId : String) (gw : Option String)
    (deliver : ℕ → DeliveryOutcome) (k : ℕ) (chunk : String)
    (st : StreamState) :
    (agentChunkStep taskId gw deliver k chunk st).log
      = st.log ++ [agentChunkSignal taskId k chunk] := by
  unfold agentChunkStep
  rw [gwSignal_log]
  rfl

lemma agentChunksLoop_log (taskId : String) (gw : Option String)
    (deliver : ℕ → DeliveryOutcome) :
    ∀ (chunks : List String) (k : ℕ) (st : StreamState),
      (agentChunksLoop taskId gw deliver k chunks st).log
        = st.log ++ agentChunkSignals taskId k chunks := by
  intro chunks
  induction chunks with
  | nil => intro k st; simp [agentChunksLoop, agentChunkSignals]
  | cons c rest ih =>
    intro k st
    rw [agentChunksLoop, agentChunkSignals, ih, agentChunkStep_log]
    simp

lemma agentChunkStep_sent_mem {taskId : String} {gw : Option String}
    {deliver : ℕ → DeliveryOutcome} {k : ℕ} {chunk : String}
    {st : StreamState} {x : GatewayUpdate}
    (hx : x ∈ (agentChunkStep taskId gw deliver k chunk st).sent) :
    x ∈ st.sent ∨ x = agentChunkUpdate taskId k chunk := by
  unfold agentChunkStep at hx
  rcases gwSignal_sent_mem hx with h | h
  · exact Or.inl h
  · exact Or.inr h

lemma agentChunksLoop_sent_mem {taskId : String} {gw : Option String}
    {deliver : ℕ → DeliveryOutcome} :
    ∀ {chunks : List String} {k : ℕ} {st : StreamState} {x : GatewayUpdate},
      x ∈ (agentChunksLoop taskId gw deliver k chunks st).sent →
      x ∈ st.sent ∨ ∃ j c, x = agentChunkUpdate taskId j c := by
  intro chunks
  induction chunks with
  | nil => intro k st x hx; exact Or.inl hx
  | cons c rest ih =>
    intro k st x hx
    rw [agentChunksLoop] at hx
    rcases ih hx with h | h
    · rcases agentChunkStep_sent_mem h with h2 | h2
      · exact Or.inl h2
      · exact Or.inr ⟨k, c, h2⟩
    · exact Or.inr h

lemma bridgeChunkStep_log (taskId : String) (gw : Option String)
    (deliver : ℕ → DeliveryOutcome) (k : ℕ) (chunk : String)
    (st : StreamState) :
    (bridgeChunkStep taskId gw deliver k chunk st).log
      = st.log ++ [bridgeChunkSignal taskId k chunk] := by
  unfold bridgeChunkStep
  rw [gwSignal_log]
  rfl

lemma bridgeChunksLoop_log (taskId : String) (gw : Option String)
    (deliver : ℕ → DeliveryOutcome) :
    ∀ (chunks : List String) (k : ℕ) (st : StreamState),
      (bridgeChunksLoop taskId gw deliver k chunks st).log
        = st.log ++ bridgeChunkSignals taskId k chunks := by
  intro chunks
  induction chunks with
  | nil => intro k st; simp [bridgeChunksLoop, bridgeChunkSignals]
  | cons c rest ih =>
    intro k st
    rw [bridgeChunksLoop, bridgeChunkSignals, ih, bridgeChunkStep_log]
    simp

lemma bridgeChunkStep_sent_mem {taskId : String} {gw : Option String}
    {deliver : ℕ → DeliveryOutcome} {k : ℕ} {chunk : String}
    {st : StreamState} {x : GatewayUpdate}
    (hx : x ∈ (bridgeChunkStep taskId gw deliver k chunk st).sent) :
    x ∈ st.sent ∨ x = mkGatewayUpdate taskId "working" (agentChunkProgress k)
      (some (bridgeChunkArtifact taskId k chunk)) := by
  unfold bridgeChunkStep at hx
  rcases gwSignal_sent_mem hx with h | h
  · exact Or.inl h
  · exact Or.inr h

lemma bridgeChunksLoop_sent_mem {taskId : String} {gw : Option String}
    {deliver : ℕ → DeliveryOutcome} :
    ∀ {chunks : List String} {k : ℕ} {st : StreamState} {x : GatewayUpdate},
      x ∈ (bridgeChunksLoop taskId gw deliver k chunks st).sent →
      x ∈ st.sent ∨ ∃ j c, x = mkGatewayUpdate taskId "working"
        (agentChunkProgress j) (some (bridgeChunkArtifact taskId j c)) := by
  intro chunks
  induction chunks with
  | nil => intro k st x hx; exact Or.inl hx
  | cons c rest ih =>
    intro k st x hx
    rw [bridgeChunksLoop] at hx
    rcases ih hx with h | h
    · rcases bridgeChunkStep_sent_mem h with h2 | h2
      · exact Or.inl h2
      · exact Or.inr ⟨k, c, h2⟩
    · exact Or.inr h

lemma runStreamingEcho_log (taskId : String) (gw : Option String)
    (msgParts : Option (List MessagePart)) (deliver : ℕ → DeliveryOutcome) :
    (runStreamingEcho taskId gw msgParts deliver).log
      = startSignal taskId ::
          (echoChunkSignals taskId (echoWords msgParts) 0
              (echoWords msgParts).length
            ++ [echoCompletedSignal taskId msgParts]) := by
  simp [runStreamingEcho, gwSignal_log, echoChunksLoop_log, logSignal,
    addProgressSignal, initState, startSignal, echoCompletedSignal,
    echoWords, echoResponseOf, echoFinalArtifact]

lemma runStreamingEcho_result (taskId : String) (gw : Option String)
    (msgParts : Option (List MessagePart)) (deliver : ℕ → DeliveryOutcome) :
    (runStreamingEcho taskId gw msgParts deliver).result
      = { artifacts := [echoFinalArtifact taskId (echoResponseOf msgParts)],
          error := none } := by
  unfold runStreamingEcho
  simp [echoResponseOf]

lemma runStreamingEcho_sent_mem {taskId : String} {gw : Option String}
    {msgParts : Option (List MessagePart)} {deliver : ℕ → DeliveryOutcome}
    {x : GatewayUpdate}
    (hx : x ∈ (runStreamingEcho taskId gw msgParts deliver).sent) :
    x = startUpdate taskId
      ∨ (∃ j, x = echoChunkUpdate taskId (echoWords msgParts) j)
      ∨ x = echoFinalUpdate taskId (echoResponseOf msgParts) := by
  unfold runStreamingEcho at hx
  rcases gwSignal_sent_mem hx with h | h
  · rw [logSignal_sent] at h
    rcases echoChunksLoop_sent_mem h with h2 | h2
    · rcases gwSignal_sent_mem h2 with h3 | h3
      · rw [logSignal_sent] at h3
        exact absurd h3 (List.not_mem_nil x)
      · exact Or.inl h3
    · exact Or.inr (Or.inl h2)
  · exact Or.inr (Or.inr h)

lemma runStreamingEcho_sent_shape (taskId : String) (gw : Option String)
    (msgParts : Option (List MessagePart)) (deliver : ℕ → DeliveryOutcome) :
    ∃ W, (∀ x ∈ W, x.status = "working")
      ∧ ((runStreamingEcho taskId gw msgParts deliver).sent = W
          ∨ (runStreamingEcho taskId gw msgParts deliver).sent
              = W ++ [echoFinalUpdate taskId (echoResponseOf msgParts)]) := by
  unfold runStreamingEcho
  refine ⟨_, ?_, gwSignal_sent_shape gw _ _ _⟩
  intro x hx
  rw [logSignal_sent] at hx
  rcases echoChunksLoop_sent_mem hx with h2 | h2
  · rcases gwSignal_sent_mem h2 with h3 | h3
    · rw [logSignal_sent] at h3
      exact absurd h3 (List.not_mem_nil x)
    · rw [h3]; rfl
  · rcases h2 with ⟨j, rfl⟩; rfl

lemma runAgentStreaming_log_ok (taskId : String) (gw : Option String)
    (chunks : List String) (deliver : ℕ → DeliveryOutcome) :
    (runAgentStreaming taskId gw (Except.ok chunks) deliver).log
      = startSignal taskId ::
          (agentChunkSignals taskId 1 chunks
            ++ [agentCompletedSignal taskId chunks]) := by
  simp [runAgentStreaming, gwSignal_log, agentChunksLoop_log, logSignal,
    addProgressSignal, initState, startSignal, agentCompletedSignal]

lemma runAgentStreaming_log_err (taskId : String) (gw : Option String)
    (e : String) (deliver : ℕ → DeliveryOutcome) :
    (runAgentStreaming taskId gw (Except.error e) deliver).log
      = [startSignal taskId,
         { taskId := taskId, status := "failed", progress := 0,
           result := none, error := e }] := by
  simp [runAgentStreaming, gwSignal_log, logSignal, addProgressSignal,
    initState, startSignal]

lemma runAgentStreaming_result_ok (taskId : String) (gw : Option String)
    (chunks : List String) (deliver : ℕ → DeliveryOutcome) :
    (runAgentStreaming taskId gw (Except.ok chunks) deliver).result
      = { artifacts := [agentFinalArtifact taskId chunks], error := none } := by
  simp [runAgentStreaming]

lemma runAgentStreaming_sent_mem {taskId : String} {gw : Option String}
    {act : Except String (List String)} {deliver : ℕ → DeliveryOutcome}
    {x : GatewayUpdate}
    (hx : x ∈ (runAgentStreaming taskId gw act deliver).sent) :
    x = startUpdate taskId
      ∨ (∃ j c, x = agentChunkUpdate taskId j c)
      ∨ (∃ chunks, x = mkGatewayUpdate taskId "completed" 1
            (some (agentFinalArtifact taskId chunks))) := by
  cases act with
  | error e =>
    simp only [runAgentStreaming] at hx
    rw [logSignal_sent] at hx
    rcases gwSignal_sent_mem hx with h | h
    · rw [logSignal_sent] at h
      exact absurd h (List.not_mem_nil x)
    · exact Or.inl h
  | ok chunks =>
    simp only [runAgentStreaming] at hx
    rcases gwSignal_sent_mem hx with h | h
    · rw [logSignal_sent] at h
      rcases agentChunksLoop_sent_mem h with h2 | h2
      · rcases gwSignal_sent_mem h2 with h3 | h3
        · rw [logSignal_sent] at h3
          exact absurd h3 (List.not_mem_nil x)
        · exact Or.inl h3
      · exact Or.inr (Or.inl h2)
    · exact Or.inr (Or.inr ⟨chunks, h⟩)

lemma startGwState_sent_working (taskId : String) (gw : Option String)
    (deliver : ℕ → DeliveryOutcome) :
    ∀ x ∈ (gwSignal gw
      (deliver (logSignal initState taskId "working" (1/10) none "").attempts)
      (logSignal initState taskId "working" (1/10) none "")
      (mkGatewayUpdate taskId "working" (1/10) none)).sent,
      x.status = "working" := by
  intro x hx
  rcases gwSignal_sent_mem hx with h | h
  · rw [logSignal_sent] at h
    exact absurd h (List.not_mem_nil x)
  · rw [h]; rfl

lemma runAgentStreaming_sent_shape_ok (taskId : String) (gw : Option String)
    (chunks : List String) (deliver : ℕ → DeliveryOutcome) :
    ∃ W, (∀ x ∈ W, x.status = "working")
      ∧ ((runAgentStreaming taskId gw (Except.ok chunks) deliver).sent = W
          ∨ (runAgentStreaming taskId gw (Except.ok chunks) deliver).sent
              = W ++ [mkGatewayUpdate taskId "completed" 1
                  (some (agentFinalArtifact taskId chunks))]) := by
  simp only [runAgentStreaming]
  refine ⟨_, ?_, gwSignal_sent_shape gw _ _ _⟩
  intro x hx
  rw [logSignal_sent] at hx
  rcases agentChunksLoop_sent_mem hx with h2 | h2
  · exact startGwState_sent_working taskId gw deliver x h2
  · rcases h2 with ⟨j, c, rfl⟩; rfl

lemma runAgentStreaming_sent_shape_err (taskId : String) (gw : Option String)
    (e : String) (deliver : ℕ → DeliveryOutcome) :
    ∀ x ∈ (runAgentStreaming taskId gw (Except.error e) deliver).sent,
      x.status = "working" := by
  intro x hx
  simp only [runAgentStreaming] at hx
  rw [logSignal_sent] at hx
  exact startGwState_sent_working taskId gw deliver x hx

lemma runBridgedStreaming_log_gw (taskId gwId : String)
    (chunks : List String) (deliver : ℕ → DeliveryOutcome)
    (nameErrMsg : String) :
    (runBridgedStreaming taskId (some gwId) chunks deliver nameErrMsg).log
      = startSignal taskId ::
          (bridgeChunkSignals taskId 1 chunks
            ++ [bridgeCompletedSignal taskId chunks,
                { taskId := taskId, status := "failed", progress := 0,
                  result := none, error := nameErrMsg }]) := by
  simp [runBridgedStreaming, gwSignal_log, bridgeChunksLoop_log, logSignal,
    addProgressSignal, initState, startSignal, bridgeCompletedSignal]

lemma runBridgedStreaming_log_nogw (taskId : String)
    (chunks : List String) (deliver : ℕ → DeliveryOutcome)
    (nameErrMsg : String) :
    (runBridgedStreaming taskId none chunks deliver nameErrMsg).log
      = startSignal taskId ::
          (bridgeChunkSignals taskId 1 chunks
            ++ [bridgeCompletedSignal taskId chunks]) := by
  simp [runBridgedStreaming, gwSignal_log, bridgeChunksLoop_log, logSignal,
    addProgressSignal, initState, startSignal, bridgeCompletedSignal]

lemma runBridgedStreaming_sent_working (taskId : String) (gw : Option String)
    (chunks : List String) (deliver : ℕ → DeliveryOutcome)
    (nameErrMsg : String) :
    ∀ x ∈ (runBridgedStreaming taskId gw chunks deliver nameErrMsg).sent,
      x.status = "working" := by
  have hmain : ∀ x ∈ (bridgeChunksLoop taskId gw deliver 1 chunks
      (gwSignal gw
        (deliver (logSignal initState taskId "working" (1/10) none "").attempts)
        (logSignal initState taskId "working" (1/10) none "")
        (mkGatewayUpdate taskId "working" (1/10) none))).sent,
      x.status = "working" := by
    intro x hx
    rcases bridgeChunksLoop_sent_mem hx with h | h
    · rcases gwSignal_sent_mem h with h2 | h2
      · rw [logSignal_sent] at h2
        exact absurd h2 (List.not_mem_nil x)
      · rw [h2]; rfl
    · rcases h with ⟨j, c, rfl⟩; rfl
  cases gw with
  | none =>
    intro x hx
    simp only [runBridgedStreaming] at hx
    rw [logSignal_sent] at hx
    exact hmain x hx
  | some g =>
    intro x hx
    simp only [runBridgedStreaming] at hx
    rw [logSignal_sent, logSignal_sent] at hx
    exact hmain x hx

lemma echoChunkProgress_nonneg (n i : ℕ) : 0 ≤ echoChunkProgress n i := by
  unfold echoChunkProgress
  have h : (0:ℚ) ≤ (6:ℚ)/10 * ((i:ℚ) + 1) / (n:ℚ) := by positivity
  linarith

lemma echoChunkProgress_gt_tenth (n i : ℕ) :
    (1:ℚ)/10 < echoChunkProgress n i := by
  unfold echoChunkProgress
  have h : (0:ℚ) ≤ (6:ℚ)/10 * ((i:ℚ) + 1) / (n:ℚ) := by positivity
  linarith

lemma echoChunkProgress_le_one {n i : ℕ} (h : i < n) :
    echoChunkProgress n i ≤ 1 := by
  unfold echoChunkProgress
  have hn : (0:ℚ) < (n:ℚ) := by
    exact_mod_cast Nat.zero_lt_of_lt h
  have hi : ((i:ℚ) + 1) ≤ (n:ℚ) := by
    exact_mod_cast Nat.succ_le_of_lt h
  have hdiv : ((i:ℚ) + 1) / (n:ℚ) ≤ 1 := by
    rw [div_le_one hn]; exact hi
  rw [mul_div_assoc]
  have h2 : (6:ℚ)/10 * (((i:ℚ) + 1) / (n:ℚ)) ≤ (6:ℚ)/10 * 1 :=
    mul_le_mul_of_nonneg_left hdiv (by norm_num)
  linarith

lemma echoChunkProgress_mono (n i : ℕ) :
    echoChunkProgress n i ≤ echoChunkProgress n (i + 1) := by
  unfold echoChunkProgress
  push_cast
  rcases Nat.eq_zero_or_pos n with h | h
  · subst h; norm_num
  · have hn : (0:ℚ) < (n:ℚ) := by exact_mod_cast h
    have hdiv : ((i:ℚ) + 1) / (n:ℚ) ≤ ((i:ℚ) + 1 + 1) / (n:ℚ) := by
      rw [div_le_div_iff_of_pos_right hn]
      linarith
    rw [mul_div_assoc, mul_div_assoc]
    have h2 : (6:ℚ)/10 * (((i:ℚ) + 1) / (n:ℚ))
        ≤ (6:ℚ)/10 * (((i:ℚ) + 1 + 1) / (n:ℚ)) :=
      mul_le_mul_of_nonneg_left hdiv (by norm_num)
    linarith

lemma agentChunkProgress_nonneg (k : ℕ) : 0 ≤ agentChunkProgress k := by
  unfold agentChunkProgress
  have h1 : (0:ℚ) ≤ (k:ℚ)/10 := by positivity
  have h2 : (0:ℚ) ≤ min ((k:ℚ)/10) (9/10) := le_min h1 (by norm_num)
  linarith

lemma agentChunkProgress_gt_tenth (k : ℕ) :
    (1:ℚ)/10 < agentChunkProgress k := by
  unfold agentChunkProgress
  have h1 : (0:ℚ) ≤ (k:ℚ)/10 := by positivity
  have h2 : (0:ℚ) ≤ min ((k:ℚ)/10) (9/10) := le_min h1 (by norm_num)
  linarith

lemma agentChunkProgress_le_one (k : ℕ) : agentChunkProgress k ≤ 1 := by
  unfold agentChunkProgress
  have h : min ((k:ℚ)/10) (9/10) ≤ 9/10 := min_le_right _ _
  linarith

lemma agentChunkProgress_mono (k : ℕ) :
    agentChunkProgress k ≤ agentChunkProgress (k + 1) := by
  unfold agentChunkProgress
  push_cast
  have h : min ((k:ℚ)/10) ((9:ℚ)/10) ≤ min (((k:ℚ) + 1)/10) ((9:ℚ)/10) :=
    min_le_min (by linarith) le_rfl
  linarith

lemma mem_echoChunkSignals {taskId : String} {words : List String} :
    ∀ {rem i : ℕ} {s : ProgressSignal},
      s ∈ echoChunkSignals taskId words i rem →
      ∃ j, i ≤ j ∧ j < i + rem ∧ s = echoChunkSignal taskId words j := by
  intro rem
  induction rem with
  | zero => intro i s hs; simp [echoChunkSignals] at hs
  | succ n ih =>
    intro i s hs
    rw [echoChunkSignals] at hs
    rcases List.mem_cons.1 hs with hs | hs
    · exact ⟨i, le_rfl, by omega, hs⟩
    · rcases ih hs with ⟨j, h1, h2, h3⟩
      exact ⟨j, by omega, by omega, h3⟩

lemma mem_agentChunkSignals {taskId : String} :
    ∀ {chunks : List String} {k : ℕ} {s : ProgressSignal},
      s ∈ agentChunkSignals taskId k chunks →
      ∃ j c, s = agentChunkSignal taskId j c := by
  intro chunks
  induction chunks with
  | nil => intro k s hs; simp [agentChunkSignals] at hs
  | cons c rest ih =>
    intro k s hs
    rw [agentChunkSignals] at hs
    rcases List.mem_cons.1 hs with hs | hs
    · exact ⟨k, c, hs⟩
    · exact ih hs

lemma mem_bridgeChunkSignals {taskId : String} :
    ∀ {chunks : List String} {k : ℕ} {s : ProgressSignal},
      s ∈ bridgeChunkSignals taskId k chunks →
      ∃ j c, s = bridgeChunkSignal taskId j c := by
  intro chunks
  induction chunks with
  | nil => intro k s hs; simp [bridgeChunkSignals] at hs
  | cons c rest ih =>
    intro k s hs
    rw [bridgeChunkSignals] at hs
    rcases List.mem_cons.1 hs with hs | hs
    · exact ⟨k, c, hs⟩
    · exact ih hs

lemma echoChunkSignals_chain (taskId : String) (words : List String) :
    ∀ (rem i : ℕ),
      List.Chain' progressStep (echoChunkSignals taskId words i rem) := by
  intro rem
  induction rem with
  | zero => intro i; simp [echoChunkSignals]
  | succ n ih =>
    intro i
    rw [echoChunkSignals]
    rw [List.chain'_cons']
    refine ⟨?_, ih (i + 1)⟩
    intro y hy
    cases n with
    | zero => simp [echoChunkSignals] at hy
    | succ m =>
      rw [echoChunkSignals] at hy
      simp only [List.head?_cons, Option.mem_def, Option.some.injEq] at hy
      subst hy
      exact Or.inl (echoChunkProgress_mono words.length i)

lemma agentChunkSignals_chain (taskId : String) :
    ∀ (chunks : List String) (k : ℕ),
      List.Chain' progressStep (agentChunkSignals taskId k chunks) := by
  intro chunks
  induction chunks with
  | nil => intro k; simp [agentChunkSignals]
  | cons c rest ih =>
    intro k
    rw [agentChunkSignals]
    rw [List.chain'_cons']
    refine ⟨?_, ih (k + 1)⟩
    intro y hy
    cases rest with
    | nil => simp [agentChunkSignals] at hy
    | cons c2 rest2 =>
      rw [agentChunkSignals] at hy
      simp only [List.head?_cons, Option.mem_def, Option.some.injEq] at hy
      subst hy
      exact Or.inl (agentChunkProgress_mono k)

lemma bridgeChunkSignals_chain (taskId : String) :
    ∀ (chunks : List String) (k : ℕ),
      List.Chain' progressStep (bridgeChunkSignals taskId k chunks) := by
  intro chunks
  induction chunks with
  | nil => intro k; simp [bridgeChunkSignals]
  | cons c rest ih =>
    intro k
    rw [bridgeChunkSignals]
    rw [List.chain'_cons']
    refine ⟨?_, ih (k + 1)⟩
    intro y hy
    cases rest with
    | nil => simp [bridgeChunkSignals] at hy
    | cons c2 rest2 =>
      rw [bridgeChunkSignals] at hy
      simp only [List.head?_cons, Option.mem_def, Option.some.injEq] at hy
      subst hy
      exact Or.inl (agentChunkProgress_mono k)

lemma echoLog_chain (taskId : String) (msgParts : Option (List MessagePart)) :
    List.Chain' progressStep
      (startSignal taskId ::
        (echoChunkSignals taskId (echoWords msgParts) 0
            (echoWords msgParts).length
          ++ [echoCompletedSignal taskId msgParts])) := by
  rw [List.chain'_cons']
  constructor
  · intro y hy
    cases hn : echoChunkSignals taskId (echoWords msgParts) 0
        (echoWords msgParts).length with
    | nil =>
      rw [hn] at hy
      simp only [List.nil_append, List.head?_cons, Option.mem_def,
        Option.some.injEq] at hy
      subst hy
      exact Or.inl (by norm_num [startSignal, echoCompletedSignal])
    | cons s rest =>
      rw [hn] at hy
      simp only [List.cons_append, List.head?_cons, Option.mem_def,
        Option.some.injEq] at hy
      subst hy
      have hs : s ∈ echoChunkSignals taskId (echoWords msgParts) 0
          (echoWords msgParts).length := by
        rw [hn]; exact List.mem_cons_self s rest
      rcases mem_echoChunkSignals hs with ⟨j, _, _, rfl⟩
      exact Or.inl (le_of_lt (by
        have := echoChunkProgress_gt_tenth (echoWords msgParts).length j
        simpa [startSignal, echoChunkSignal] using this))
  · refine List.Chain'.append
      (echoChunkSignals_chain taskId (echoWords msgParts) _ 0)
      (List.chain'_singleton _) ?_
    intro x hx y hy
    simp only [List.head?_cons, Option.mem_def, Option.some.injEq] at hy
    subst hy
    have hxmem := List.mem_of_getLast?_eq_some hx
    rcases mem_echoChunkSignals hxmem with ⟨j, _, hj, rfl⟩
    refine Or.inl ?_
    have hle : echoChunkProgress (echoWords msgParts).length j ≤ 1 :=
      echoChunkProgress_le_one (by omega)
    simpa [echoChunkSignal, echoCompletedSignal] using hle

lemma echoLog_range (taskId : String) (msgParts : Option (List MessagePart)) :
    ∀ s ∈ startSignal taskId ::
        (echoChunkSignals taskId (echoWords msgParts) 0
            (echoWords msgParts).length
          ++ [echoCompletedSignal taskId msgParts]),
      0 ≤ s.progress ∧ s.progress ≤ 1 := by
  intro s hs
  rcases List.mem_cons.1 hs with rfl | hs
  · norm_num [startSignal]
  rcases List.mem_append.1 hs with hs | hs
  · rcases mem_echoChunkSignals hs with ⟨j, _, hj, rfl⟩
    refine ⟨?_, ?_⟩
    · simpa [echoChunkSignal] using
        echoChunkProgress_nonneg (echoWords msgParts).length j
    · simpa [echoChunkSignal] using
        echoChunkProgress_le_one (n := (echoWords msgParts).length)
          (i := j) (by omega)
  · rcases List.mem_singleton.1 hs with rfl
    norm_num [echoCompletedSignal]

lemma agentLog_chain (taskId : String) (chunks : List String) :
    List.Chain' progressStep
      (startSignal taskId ::
        (agentChunkSignals taskId 1 chunks
          ++ [agentCompletedSignal taskId chunks])) := by
  rw [List.chain'_cons']
  constructor
  · intro y hy
    cases hn : agentChunkSignals taskId 1 chunks with
    | nil =>
      rw [hn] at hy
      simp only [List.nil_append, List.head?_cons, Option.mem_def,
        Option.some.injEq] at hy
      subst hy
      exact Or.inl (by norm_num [startSignal, agentCompletedSignal])
    | cons s rest =>
      rw [hn] at hy
      simp only [List.cons_append, List.head?_cons, Option.mem_def,
        Option.some.injEq] at hy
      subst hy
      have hs : s ∈ agentChunkSignals taskId 1 chunks := by
        rw [hn]; exact List.mem_cons_self s rest
      rcases mem_agentChunkSignals hs with ⟨j, c, rfl⟩
      exact Or.inl (le_of_lt (by
        have := agentChunkProgress_gt_tenth j
        simpa [startSignal, agentChunkSignal] using this))
  · refine List.Chain'.append
      (agentChunkSignals_chain taskId chunks 1)
      (List.chain'_singleton _) ?_
    intro x hx y hy
    simp only [List.head?_cons, Option.mem_def, Option.some.injEq] at hy
    subst hy
    have hxmem := List.mem_of_getLast?_eq_some hx
    rcases mem_agentChunkSignals hxmem with ⟨j, c, rfl⟩
    exact Or.inl (by
      simpa [agentChunkSignal, agentCompletedSignal] using
        agentChunkProgress_le_one j)

lemma agentLog_range (taskId : String) (chunks : List String) :
    ∀ s ∈ startSignal taskId ::
        (agentChunkSignals taskId 1 chunks
          ++ [agentCompletedSignal taskId chunks]),
      0 ≤ s.progress ∧ s.progress ≤ 1 := by
  intro s hs
  rcases List.mem_cons.1 hs with rfl | hs
  · norm_num [startSignal]
  rcases List.mem_append.1 hs with hs | hs
  · rcases mem_agentChunkSignals hs with ⟨j, c, rfl⟩
    constructor
    · simpa [agentChunkSignal] using agentChunkProgress_nonneg j
    · simpa [agentChunkSignal] using agentChunkProgress_le_one j
  · rcases List.mem_singleton.1 hs with rfl
    norm_num [agentCompletedSignal]

lemma terminal_tail_facts (W : List GatewayUpdate) (t : GatewayUpdate)
    (sent : List GatewayUpdate) (hW : ∀ x ∈ W, x.status = "working")
    (h : sent = W ∨ sent = W ++ [t]) :
    (∀ u ∈ sent.dropLast, isTerminal u.status = false)
      ∧ (sent.filter (fun u => isTerminal u.status)).length ≤ 1 := by
  have hWt : ∀ x ∈ W, isTerminal x.status = false := by
    intro x hx
    rw [hW x hx]
    rfl
  have hfilW : W.filter (fun u => isTerminal u.status) = [] :=
    List.filter_eq_nil_iff.2 (fun a ha => by
      rw [hWt a ha]; exact Bool.false_ne_true)
  rcases h with rfl | rfl
  · constructor
    · intro u hu
      exact hWt u (List.dropLast_subset _ hu)
    · rw [hfilW]
      norm_num
  · constructor
    · intro u hu
      rw [List.dropLast_concat] at hu
      exact hWt u hu
    · rw [List.filter_append, hfilW, List.nil_append]
      exact List.length_filter_le _ _

lemma mkGatewayUpdate_lastChunk_iff (t s : String) (p : ℚ)
    (a : Option Artifact) :
    ((mkGatewayUpdate t s p a).lastChunk = true
      ↔ (mkGatewayUpdate t s p a).status = "completed") := by
  simp [mkGatewayUpdate]

/-- C1 counterexample: in `StreamingEchoTaskWorkflow.run` the artifact-bearing
gateway updates of one streaming response do NOT share one artifactId — each
chunk carries a fresh `-chunk-{i}` id and the final update a `-final` id, so
the id of the first chunk differs from the id of the final chunk. -/
theorem claim_C1_counterexample :
    ((runStreamingEcho "t" (some "g") (some [some "a b"]) okDeliver).sent.filterMap
        (fun u => u.artifact.map Artifact.artifactId))
      = ["streaming-echo-t-chunk-1", "streaming-echo-t-chunk-2",
         "streaming-echo-t-chunk-3", "streaming-echo-t-final"]
    ∧ ("streaming-echo-t-chunk-1" : String) ≠ "streaming-echo-t-final" := by
  with_unfolding_all decide

/-- C1 (amended): only the SDK template `AgentStreamingWorkflow` keeps the
artifactId stable: every artifact-bearing gateway update and every
artifact-bearing log entry of a run carries the single id
`artifact-{task_id.split('-')[0][:8]}`; the echo worker and the workflow
bridge instead assign a fresh per-chunk id and a distinct `-final` id. -/
theorem claim_C1 (taskId : String) (gw : Option String)
    (act : Except String (List String)) (deliver : ℕ → DeliveryOutcome) :
    (∀ u ∈ (runAgentStreaming taskId gw act deliver).sent,
      ∀ a, u.artifact = some a → a.artifactId = sdkArtifactId taskId)
    ∧ (∀ s ∈ (runAgentStreaming taskId gw act deliver).log,
      ∀ r, s.result = some r →
        ∀ a ∈ r.artifacts, a.artifactId = sdkArtifactId taskId) := by
  constructor
  · intro u hu a ha
    rcases runAgentStreaming_sent_mem hu with h | h | h
    · subst h
      simp [startUpdate, mkGatewayUpdate] at ha
    · rcases h with ⟨j, c, rfl⟩
      simp only [agentChunkUpdate, mkGatewayUpdate, Option.some.injEq] at ha
      subst ha
      rfl
    · rcases h with ⟨chunks, rfl⟩
      simp only [mkGatewayUpdate, Option.some.injEq] at ha
      subst ha
      rfl
  · intro s hs r hr a ha
    cases act with
    | error e =>
      rw [runAgentStreaming_log_err] at hs
      rcases List.mem_cons.1 hs with rfl | hs
      · simp [startSignal] at hr
      · rcases List.mem_singleton.1 hs with rfl
        simp at hr
    | ok chunks =>
      rw [runAgentStreaming_log_ok] at hs
      rcases List.mem_cons.1 hs with rfl | hs
      · simp [startSignal] at hr
      rcases List.mem_append.1 hs with hs | hs
      · rcases mem_agentChunkSignals hs with ⟨j, c, rfl⟩
        simp only [agentChunkSignal, Option.some.injEq] at hr
        subst hr
        rcases List.mem_singleton.1 ha with rfl
        rfl
      · rcases List.mem_singleton.1 hs with rfl
        simp only [agentCompletedSignal, Option.some.injEq] at hr
        subst hr
        rcases List.mem_singleton.1 ha with rfl
        rfl

/-- C1 witness: a concrete chunk update of an `AgentStreamingWorkflow` run is
in the sent list and its artifact carries the stable id. -/
theorem claim_C1_witness :
    (agentChunkUpdate "t" 1 "hi"
        ∈ (runAgentStreaming "t" (some "g") (Except.ok ["hi"]) okDeliver).sent)
    ∧ (agentChunkArtifact "t" "hi").artifactId = sdkArtifactId "t" :=
  ⟨by with_unfolding_all decide,
   (claim_C1 "t" (some "g") (Except.ok ["hi"]) okDeliver).1
     (agentChunkUpdate "t" 1 "hi") (by with_unfolding_all decide)
     (agentChunkArtifact "t" "hi") rfl⟩

/-- C2 counterexample: for the textual progressive build of
`StreamingEchoTaskWorkflow` the emitted updates do carry the full current
text, but `append` is true, not false, on every artifact-bearing chunk
(the code computes it as `progress > 0.1`): the second chunk extends the
first chunk's text and still has `append = true`. -/
theorem claim_C2_counterexample :
    ((runStreamingEcho "t" (some "g") (some [some "a b"]) okDeliver).sent.map
        (fun u => (u.append, u.artifact.map Artifact.parts)))
      = [(false, none),
         (true, some [textPart "Echo:"]),
         (true, some [textPart "Echo: a"]),
         (true, some [textPart "Echo: a b"]),
         (true, some [textPart "Echo: a b"])] := by
  with_unfolding_all decide

/-- C2 (amended): every artifact-bearing wire update of a streaming echo run
carries the full current text (the space-joined first k words for a chunk, or
the whole `echo_response` for the final update) and has `append = true` —
`_signal_gateway` computes `append` as `progress > 0.1`, which holds for
every artifact-bearing update; only `StreamingContext.send_chunk` of
streaming.py uses `append = chunk_count > 1`, false for the first chunk. -/
theorem claim_C2 (taskId : String) (gw : Option String)
    (msgParts : Option (List MessagePart)) (deliver : ℕ → DeliveryOutcome) :
    (∀ u ∈ (runStreamingEcho taskId gw msgParts deliver).sent,
      u.artifact.isSome = true →
      u.append = true
        ∧ ((∃ k, u.artifact.map Artifact.parts
              = some [textPart (currentText (echoWords msgParts) (k + 1))])
            ∨ u.artifact.map Artifact.parts
                = some [textPart (echoResponseOf msgParts)]))
    ∧ ∀ (t aid nm c : String) (k : ℕ),
        (sendChunkUpdate t aid nm c k).append = decide (1 < k) := by
  constructor
  · intro u hu hart
    rcases runStreamingEcho_sent_mem hu with h | h | h
    · subst h
      simp [startUpdate, mkGatewayUpdate] at hart
    · rcases h with ⟨j, rfl⟩
      constructor
      · have hgt := echoChunkProgress_gt_tenth (echoWords msgParts).length j
        simpa [echoChunkUpdate, mkGatewayUpdate] using hgt
      · exact Or.inl ⟨j, by simp [echoChunkUpdate, mkGatewayUpdate,
          echoChunkGwArtifact]⟩
    · subst h
      constructor
      · have hgt : (1:ℚ)/10 < 1 := by norm_num
        simpa [echoFinalUpdate, mkGatewayUpdate] using hgt
      · exact Or.inr (by simp [echoFinalUpdate, mkGatewayUpdate])
  · intro t aid nm c k
    rfl

/-- C2 witness: the second chunk update of a concrete run is artifact-bearing
and has `append = true`. -/
theorem claim_C2_witness :
    (echoChunkUpdate "t" ["Echo:", "a", "b"] 1
        ∈ (runStreamingEcho "t" (some "g") (some [some "a b"]) okDeliver).sent)
    ∧ (echoChunkUpdate "t" ["Echo:", "a", "b"] 1).append = true :=
  ⟨by with_unfolding_all decide,
   ((claim_C2 "t" (some "g") (some [some "a b"]) okDeliver).1
     (echoChunkUpdate "t" ["Echo:", "a", "b"] 1)
     (by with_unfolding_all decide) (by with_unfolding_all decide)).1⟩

/-- C3 counterexample: the log is not sealed after a terminal event.  A
`SDKBridgedStreamingWorkflow` run with a gateway appends a `completed` event
and then a `failed` event (the unbound `result` NameError of
workflow_bridge.py line 228), so its log holds two terminal events; and
`add_progress_signal` stores an append arriving after a terminal event
instead of rejecting it. -/
theorem claim_C3_counterexample :
    (((runBridgedStreaming "t" (some "g") ["hi"] okDeliver "err").log.filter
        (fun s => isTerminal s.status)).length = 2)
    ∧ addProgressSignal
        [{ taskId := "t", status := "completed", progress := 1,
           result := none, error := "" }] (startSignal "t")
      ≠ [{ taskId := "t", status := "completed", progress := 1,
           result := none, error := "" }] := by
  with_unfolding_all decide

/-- C3 (amended): the echo worker workflows and the SDK template workflows
append exactly one terminal event per run, and it is the last log entry (the
log's terminal events are exactly its last element); but the log is never
sealed — `add_progress_signal` is an unconditional append that always grows
the log by one, even after a terminal event, and the bridged streaming
workflow with a gateway does append a second terminal event. -/
theorem claim_C3 :
    (∀ (taskId : String) (msgParts : Option (List MessagePart))
        (act : String → Except String String),
      (runEcho taskId msgParts act).log.filter (fun s => isTerminal s.status)
        = (runEcho taskId msgParts act).log.getLast?.toList)
    ∧ (∀ (taskId : String) (gw : Option String)
        (msgParts : Option (List MessagePart)) (deliver : ℕ → DeliveryOutcome),
      (runStreamingEcho taskId gw msgParts deliver).log.filter
          (fun s => isTerminal s.status)
        = (runStreamingEcho taskId gw msgParts deliver).log.getLast?.toList)
    ∧ (∀ (taskId : String) (gw : Option String)
        (act : Except String (List String)) (deliver : ℕ → DeliveryOutcome),
      (runAgentStreaming taskId gw act deliver).log.filter
          (fun s => isTerminal s.status)
        = (runAgentStreaming taskId gw act deliver).log.getLast?.toList)
    ∧ (∀ (l : List ProgressSignal) (s : ProgressSignal),
        (addProgressSignal l s).length = l.length + 1) := by
  have hecho : ∀ (taskId : String) (msgParts : Option (List MessagePart)),
      ∀ s ∈ echoChunkSignals taskId (echoWords msgParts) 0
          (echoWords msgParts).length, isTerminal s.status = false := by
    intro taskId msgParts s hs
    rcases mem_echoChunkSignals hs with ⟨j, _, _, rfl⟩
    rfl
  have hagent : ∀ (taskId : String) (chunks : List String),
      ∀ s ∈ agentChunkSignals taskId 1 chunks, isTerminal s.status = false := by
    intro taskId chunks s hs
    rcases mem_agentChunkSignals hs with ⟨j, c, rfl⟩
    rfl
  refine ⟨?_, ?_, ?_, ?_⟩
  · intro taskId msgParts act
    cases hact : act (extractUserMessage msgParts) with
    | ok r => simp [runEcho, hact, addProgressSignal, isTerminal]
    | error e => simp [runEcho, hact, addProgressSignal, isTerminal]
  · intro taskId gw msgParts deliver
    rw [runStreamingEcho_log]
    rw [show startSignal taskId ::
          (echoChunkSignals taskId (echoWords msgParts) 0
              (echoWords msgParts).length
            ++ [echoCompletedSignal taskId msgParts])
        = (startSignal taskId ::
            echoChunkSignals taskId (echoWords msgParts) 0
              (echoWords msgParts).length)
          ++ [echoCompletedSignal taskId msgParts] from rfl]
    rw [List.getLast?_concat, List.filter_append, List.filter_cons]
    rw [List.filter_eq_nil_iff.2 (fun a ha => by
      rw [hecho taskId msgParts a ha]; exact Bool.false_ne_true)]
    simp [startSignal, echoCompletedSignal, isTerminal]
  · intro taskId gw act deliver
    cases act with
    | error e =>
      rw [runAgentStreaming_log_err]
      simp [startSignal, isTerminal]
    | ok chunks =>
      rw [runAgentStreaming_log_ok]
      rw [show startSignal taskId ::
            (agentChunkSignals taskId 1 chunks
              ++ [agentCompletedSignal taskId chunks])
          = (startSignal taskId :: agentChunkSignals taskId 1 chunks)
            ++ [agentCompletedSignal taskId chunks] from rfl]
      rw [List.getLast?_concat, List.filter_append, List.filter_cons]
      rw [List.filter_eq_nil_iff.2 (fun a ha => by
        rw [hagent taskId chunks a ha]; exact Bool.false_ne_true)]
      simp [startSignal, agentCompletedSignal, isTerminal]
  · intro l s
    simp [addProgressSignal]

/-- C4 counterexample: re-appending an already-applied event is not
idempotent — the log grows from one entry to two identical entries. -/
theorem claim_C4_counterexample :
    addProgressSignal (addProgressSignal [] (startSignal "t")) (startSignal "t")
      = [startSignal "t", startSignal "t"]
    ∧ (addProgressSignal (addProgressSignal [] (startSignal "t"))
        (startSignal "t")).length ≠ 1 := by
  with_unfolding_all decide

/-- C4 (amended): progress events carry no per-task sequence numbers and
`add_progress_signal` performs no deduplication: appending an event that is
already in the log always stores it again, growing the log by one entry and
changing its content. -/
theorem claim_C4 (l : List ProgressSignal) (s : ProgressSignal)
    (_hs : s ∈ l) :
    (addProgressSignal l s).length = l.length + 1
      ∧ addProgressSignal l s ≠ l := by
  refine ⟨by simp [addProgressSignal], ?_⟩
  intro h
  have hlen := congrArg List.length h
  simp [addProgressSignal] at hlen

/-- C4 witness: re-appending the one event already in a singleton log yields
a two-entry log. -/
theorem claim_C4_witness :
    (startSignal "t" ∈ [startSignal "t"])
    ∧ (addProgressSignal [startSignal "t"] (startSignal "t")).length
        = [startSignal "t"].length + 1 :=
  ⟨by with_unfolding_all decide,
   (claim_C4 [startSignal "t"] (startSignal "t")
     (by with_unfolding_all decide)).1⟩

/-- C5: for every run of the echo, SDK-template and bridged workflows (both
success and failure paths), the terminal progress event appended to the log
agrees with the workflow's own returned result: it carries a terminal status
and exactly the returned artifacts and error. -/
theorem claim_C5 :
    (∀ (taskId : String) (msgParts : Option (List MessagePart))
        (act : String → Except String String),
      terminalMatchesResult (runEcho taskId msgParts act))
    ∧ (∀ (taskId : String) (gw : Option String)
        (act : Except String (List String)) (deliver : ℕ → DeliveryOutcome),
      terminalMatchesResult (runAgentStreaming taskId gw act deliver))
    ∧ (∀ (taskId : String) (gw : Option String)
        (msgParts : Option (List MessagePart)) (deliver : ℕ → DeliveryOutcome),
      terminalMatchesResult (runStreamingEcho taskId gw msgParts deliver))
    ∧ (∀ (taskId : String) (gw : Option String) (chunks : List String)
        (deliver : ℕ → DeliveryOutcome) (e : String),
      terminalMatchesResult (runBridgedStreaming taskId gw chunks deliver e)) := by
  refine ⟨?_, ?_, ?_, ?_⟩
  · intro taskId msgParts act
    unfold terminalMatchesResult
    cases hact : act (extractUserMessage msgParts) with
    | ok r =>
      simp [runEcho, hact, addProgressSignal, isTerminal]
    | error e =>
      simp only [runEcho, hact, addProgressSignal]
      simp [isTerminal, errOpt]
      rcases eq_or_ne e "" with he | he <;> simp [he]
  · intro taskId gw act deliver
    unfold terminalMatchesResult
    cases act with
    | ok chunks =>
      rw [runAgentStreaming_log_ok, runAgentStreaming_result_ok]
      rw [show startSignal taskId ::
            (agentChunkSignals taskId 1 chunks
              ++ [agentCompletedSignal taskId chunks])
          = (startSignal taskId :: agentChunkSignals taskId 1 chunks)
            ++ [agentCompletedSignal taskId chunks] from rfl]
      rw [List.getLast?_concat]
      simp [agentCompletedSignal, isTerminal]
    | error e =>
      rw [runAgentStreaming_log_err]
      simp [runAgentStreaming, isTerminal]
  · intro taskId gw msgParts deliver
    unfold terminalMatchesResult
    rw [runStreamingEcho_log, runStreamingEcho_result]
    rw [show startSignal taskId ::
          (echoChunkSignals taskId (echoWords msgParts) 0
              (echoWords msgParts).length
            ++ [echoCompletedSignal taskId msgParts])
        = (startSignal taskId ::
            echoChunkSignals taskId (echoWords msgParts) 0
              (echoWords msgParts).length)
          ++ [echoCompletedSignal taskId msgParts] from rfl]
    rw [List.getLast?_concat]
    simp [echoCompletedSignal, isTerminal]
  · intro taskId gw chunks deliver e
    unfold terminalMatchesResult
    cases gw with
    | none =>
      rw [runBridgedStreaming_log_nogw]
      rw [show startSignal taskId ::
            (bridgeChunkSignals taskId 1 chunks
              ++ [bridgeCompletedSignal taskId chunks])
          = (startSignal taskId :: bridgeChunkSignals taskId 1 chunks)
            ++ [bridgeCompletedSignal taskId chunks] from rfl]
      rw [List.getLast?_concat]
      simp [runBridgedStreaming, bridgeCompletedSignal, isTerminal]
    | some g =>
      rw [runBridgedStreaming_log_gw]
      rw [show startSignal taskId ::
            (bridgeChunkSignals taskId 1 chunks
              ++ [bridgeCompletedSignal taskId chunks,
                  { taskId := taskId, status := "failed", progress := 0,
                    result := none, error := e }])
          = (startSignal taskId ::
              (bridgeChunkSignals taskId 1 chunks
                ++ [bridgeCompletedSignal taskId chunks]))
            ++ [{ taskId := taskId, status := "failed", progress := 0,
                  result := none, error := e }] by
        simp]
      rw [List.getLast?_concat]
      simp [runBridgedStreaming, isTerminal]

/-- C6: at most one gateway update with a terminal status is ever emitted per
run, and when it is emitted it is the last element of the emission sequence —
every update before the last has a non-terminal status. -/
theorem claim_C6 :
    (∀ (taskId : String) (gw : Option String)
        (msgParts : Option (List MessagePart)) (deliver : ℕ → DeliveryOutcome),
      (∀ u ∈ (runStreamingEcho taskId gw msgParts deliver).sent.dropLast,
        isTerminal u.status = false)
      ∧ ((runStreamingEcho taskId gw msgParts deliver).sent.filter
          (fun u => isTerminal u.status)).length ≤ 1)
    ∧ (∀ (taskId : String) (gw : Option String)
        (act : Except String (List String)) (deliver : ℕ → DeliveryOutcome),
      (∀ u ∈ (runAgentStreaming taskId gw act deliver).sent.dropLast,
        isTerminal u.status = false)
      ∧ ((runAgentStreaming taskId gw act deliver).sent.filter
          (fun u => isTerminal u.status)).length ≤ 1)
    ∧ (∀ (taskId : String) (gw : Option String) (chunks : List String)
        (deliver : ℕ → DeliveryOutcome) (e : String),
      (∀ u ∈ (runBridgedStreaming taskId gw chunks deliver e).sent.dropLast,
        isTerminal u.status = false)
      ∧ ((runBridgedStreaming taskId gw chunks deliver e).sent.filter
          (fun u => isTerminal u.status)).length ≤ 1) := by
  refine ⟨?_, ?_, ?_⟩
  · intro taskId gw msgParts deliver
    rcases runStreamingEcho_sent_shape taskId gw msgParts deliver with
      ⟨W, hW, hshape⟩
    exact terminal_tail_facts W _ _ hW hshape
  · intro taskId gw act deliver
    cases act with
    | ok chunks =>
      rcases runAgentStreaming_sent_shape_ok taskId gw chunks deliver with
        ⟨W, hW, hshape⟩
      exact terminal_tail_facts W _ _ hW hshape
    | error e =>
      exact terminal_tail_facts _ (startUpdate taskId) _
        (runAgentStreaming_sent_shape_err taskId gw e deliver) (Or.inl rfl)
  · intro taskId gw chunks deliver e
    exact terminal_tail_facts _ (startUpdate taskId) _
      (runBridgedStreaming_sent_working taskId gw chunks deliver e) (Or.inl rfl)

/-- C6 witness: the initial working update of a concrete echo streaming run
sits before the last emission and is non-terminal. -/
theorem claim_C6_witness :
    (startUpdate "t"
        ∈ (runStreamingEcho "t" (some "g") (some [some "a b"]) okDeliver).sent.dropLast)
    ∧ isTerminal (startUpdate "t").status = false :=
  ⟨by with_unfolding_all decide,
   (claim_C6.1 "t" (some "g") (some [some "a b"]) okDeliver).1 (startUpdate "t")
     (by with_unfolding_all decide)⟩

/-- C7: every progress value appended to the log lies in [0, 1], and along
the log progress is non-decreasing except on a failure event (which may
regress to 0). -/
theorem claim_C7 :
    (∀ (taskId : String) (gw : Option String)
        (msgParts : Option (List MessagePart)) (deliver : ℕ → DeliveryOutcome),
      (∀ s ∈ (runStreamingEcho taskId gw msgParts deliver).log,
        0 ≤ s.progress ∧ s.progress ≤ 1)
      ∧ List.Chain' progressStep (runStreamingEcho taskId gw msgParts deliver).log)
    ∧ (∀ (taskId : String) (gw : Option String)
        (act : Except String (List String)) (deliver : ℕ → DeliveryOutcome),
      (∀ s ∈ (runAgentStreaming taskId gw act deliver).log,
        0 ≤ s.progress ∧ s.progress ≤ 1)
      ∧ List.Chain' progressStep (runAgentStreaming taskId gw act deliver).log)
    ∧ (∀ (taskId : String) (msgParts : Option (List MessagePart))
        (act : String → Except String String),
      (∀ s ∈ (runEcho taskId msgParts act).log,
        0 ≤ s.progress ∧ s.progress ≤ 1)
      ∧ List.Chain' progressStep (runEcho taskId msgParts act).log) := by
  refine ⟨?_, ?_, ?_⟩
  · intro taskId gw msgParts deliver
    rw [runStreamingEcho_log]
    exact ⟨echoLog_range taskId msgParts, echoLog_chain taskId msgParts⟩
  · intro taskId gw act deliver
    cases act with
    | ok chunks =>
      rw [runAgentStreaming_log_ok]
      exact ⟨agentLog_range taskId chunks, agentLog_chain taskId chunks⟩
    | error e =>
      rw [runAgentStreaming_log_err]
      constructor
      · intro s hs
        rcases List.mem_cons.1 hs with rfl | hs
        · norm_num [startSignal]
        · rcases List.mem_singleton.1 hs with rfl
          norm_num
      · exact List.chain'_cons.2 ⟨Or.inr rfl, List.chain'_singleton _⟩
  · intro taskId msgParts act
    cases hact : act (extractUserMessage msgParts) with
    | ok r =>
      have hlog : (runEcho taskId msgParts act).log
          = [{ taskId := taskId, status := "working", progress := 1/10,
               result := none, error := "" },
             { taskId := taskId, status := "working", progress := 1/2,
               result := none, error := "" },
             { taskId := taskId, status := "completed", progress := 1,
               result := some { artifacts :=
                 [{ artifactId := "echo-" ++ taskId, name := "Echo Response",
                    description := some "Echoed user message",
                    parts := [textPart r] }], error := none }, error := "" }] := by
        simp [runEcho, hact, addProgressSignal]
      rw [hlog]
      constructor
      · intro s hs
        rcases List.mem_cons.1 hs with rfl | hs
        · norm_num
        rcases List.mem_cons.1 hs with rfl | hs
        · norm_num
        rcases List.mem_singleton.1 hs with rfl
        norm_num
      · refine List.chain'_cons.2 ⟨Or.inl (by norm_num), ?_⟩
        exact List.chain'_cons.2 ⟨Or.inl (by norm_num), List.chain'_singleton _⟩
    | error e =>
      have hlog : (runEcho taskId msgParts act).log
          = [{ taskId := taskId, status := "working", progress := 1/10,
               result := none, error := "" },
             { taskId := taskId, status := "working", progress := 1/2,
               result := none, error := "" },
             { taskId := taskId, status := "failed", progress := 0,
               result := none, error := e }] := by
        simp [runEcho, hact, addProgressSignal]
      rw [hlog]
      constructor
      · intro s hs
        rcases List.mem_cons.1 hs with rfl | hs
        · norm_num
        rcases List.mem_cons.1 hs with rfl | hs
        · norm_num
        rcases List.mem_singleton.1 hs with rfl
        norm_num
      · refine List.chain'_cons.2 ⟨Or.inl (by norm_num), ?_⟩
        exact List.chain'_cons.2 ⟨Or.inr rfl, List.chain'_singleton _⟩

/-- C7 witness: the initial signal of a concrete run has progress within
[0, 1]. -/
theorem claim_C7_witness :
    (startSignal "t" ∈ (runStreamingEcho "t" (some "g") (some [some "a b"]) okDeliver).log)
    ∧ 0 ≤ (startSignal "t").progress ∧ (startSignal "t").progress ≤ 1 :=
  ⟨by with_unfolding_all decide,
   (claim_C7.1 "t" (some "g") (some [some "a b"]) okDeliver).1 (startSignal "t")
     (by with_unfolding_all decide)⟩

/-- C8: an emitted gateway update has `lastChunk = true` exactly when its
status is `"completed"` (there is no separate executor mark-final mechanism in
the code), and in particular `StreamingContext.send_chunk` always emits
status `"working"` with `lastChunk = false`. -/
theorem claim_C8 :
    (∀ (taskId : String) (gw : Option String)
        (msgParts : Option (List MessagePart)) (deliver : ℕ → DeliveryOutcome),
      ∀ u ∈ (runStreamingEcho taskId gw msgParts deliver).sent,
        (u.lastChunk = true ↔ u.status = "completed"))
    ∧ (∀ (taskId : String) (gw : Option String)
        (act : Except String (List String)) (deliver : ℕ → DeliveryOutcome),
      ∀ u ∈ (runAgentStreaming taskId gw act deliver).sent,
        (u.lastChunk = true ↔ u.status = "completed"))
    ∧ (∀ (t aid nm c : String) (k : ℕ),
        (sendChunkUpdate t aid nm c k).status = "working"
        ∧ (sendChunkUpdate t aid nm c k).lastChunk = false) := by
  refine ⟨?_, ?_, ?_⟩
  · intro taskId gw msgParts deliver u hu
    rcases runStreamingEcho_sent_mem hu with h | h | h
    · subst h
      exact mkGatewayUpdate_lastChunk_iff _ _ _ _
    · rcases h with ⟨j, rfl⟩
      exact mkGatewayUpdate_lastChunk_iff _ _ _ _
    · subst h
      exact mkGatewayUpdate_lastChunk_iff _ _ _ _
  · intro taskId gw act deliver u hu
    rcases runAgentStreaming_sent_mem hu with h | h | h
    · subst h
      exact mkGatewayUpdate_lastChunk_iff _ _ _ _
    · rcases h with ⟨j, c, rfl⟩
      exact mkGatewayUpdate_lastChunk_iff _ _ _ _
    · rcases h with ⟨chunks, rfl⟩
      exact mkGatewayUpdate_lastChunk_iff _ _ _ _
  · intro t aid nm c k
    exact ⟨rfl, rfl⟩

/-- C8 witness: the initial working update of a concrete run satisfies the
lastChunk-iff-completed equivalence. -/
theorem claim_C8_witness :
    (startUpdate "t"
        ∈ (runStreamingEcho "t" (some "g") (some [some "a b"]) okDeliver).sent)
    ∧ ((startUpdate "t").lastChunk = true ↔ (startUpdate "t").status = "completed") :=
  ⟨by with_unfolding_all decide,
   claim_C8.1 "t" (some "g") (some [some "a b"]) okDeliver (startUpdate "t")
     (by with_unfolding_all decide)⟩

/-- C9: gateway-delivery failures are swallowed by the `try`/`except` around
`_signal_gateway`: for any two assignments of delivery outcomes the run
appends exactly the same progress log and returns exactly the same result —
the workflow's execution and final value never depend on whether any gateway
signal succeeded. -/
theorem claim_C9 :
    (∀ (taskId : String) (gw : Option String)
        (msgParts : Option (List MessagePart))
        (d d' : ℕ → DeliveryOutcome),
      (runStreamingEcho taskId gw msgParts d).log
          = (runStreamingEcho taskId gw msgParts d').log
      ∧ (runStreamingEcho taskId gw msgParts d).result
          = (runStreamingEcho taskId gw msgParts d').result)
    ∧ (∀ (taskId : String) (gw : Option String)
        (act : Except String (List String)) (d d' : ℕ → DeliveryOutcome),
      (runAgentStreaming taskId gw act d).log
          = (runAgentStreaming taskId gw act d').log
      ∧ (runAgentStreaming taskId gw act d).result
          = (runAgentStreaming taskId gw act d').result)
    ∧ (∀ (taskId : String) (gw : Option String) (chunks : List String)
        (e : String) (d d' : ℕ → DeliveryOutcome),
      (runBridgedStreaming taskId gw chunks d e).log
          = (runBridgedStreaming taskId gw chunks d' e).log
      ∧ (runBridgedStreaming taskId gw chunks d e).result
          = (runBridgedStreaming taskId gw chunks d' e).result) := by
  refine ⟨?_, ?_, ?_⟩
  · intro taskId gw msgParts d d'
    exact ⟨by rw [runStreamingEcho_log, runStreamingEcho_log],
           by rw [runStreamingEcho_result, runStreamingEcho_result]⟩
  · intro taskId gw act d d'
    cases act with
    | ok chunks =>
      exact ⟨by rw [runAgentStreaming_log_ok, runAgentStreaming_log_ok],
             by rw [runAgentStreaming_result_ok, runAgentStreaming_result_ok]⟩
    | error e =>
      exact ⟨by rw [runAgentStreaming_log_err, runAgentStreaming_log_err],
             by simp [runAgentStreaming]⟩
  · intro taskId gw chunks e d d'
    cases gw with
    | none =>
      exact ⟨by rw [runBridgedStreaming_log_nogw, runBridgedStreaming_log_nogw],
             by simp [runBridgedStreaming]⟩
    | some g =>
      exact ⟨by rw [runBridgedStreaming_log_gw, runBridgedStreaming_log_gw],
             by simp [runBridgedStreaming]⟩

/-- C10 counterexample: when the first part carrying a `"text"` key has empty
text but a later part has non-empty text, the final artifact's text is
"Echo: Hello" (the loop breaks on the first text-keyed part and falls back to
"Hello"), not "Echo: " followed by any text found in the parts. -/
theorem claim_C10_counterexample :
    ((runStreamingEcho "t" none (some [some "", some "x"]) okDeliver).result.artifacts.map
        (fun a => a.parts)) = [[textPart "Echo: Hello"]]
    ∧ ("Echo: Hello" : String) ≠ "Echo: " ++ "x"
    ∧ ("Echo: Hello" : String) ≠ "Echo: " := by
  with_unfolding_all decide

/-- C10 (amended): the final artifact of a streaming echo run contains exactly
one text part equal to "Echo: " followed by the text of the first part that
has a `"text"` key when that text is non-empty, and "Echo: Hello" otherwise
(no text-keyed part, or its text empty); and for a message text with
consecutive whitespace the final text differs from the last progressive
chunk, which joins the whitespace-split words with single spaces. -/
theorem claim_C10 :
    (∀ (taskId : String) (gw : Option String)
        (msgParts : Option (List MessagePart)) (deliver : ℕ → DeliveryOutcome),
      (runStreamingEcho taskId gw msgParts deliver).result.artifacts
        = [echoFinalArtifact taskId ("Echo: " ++ extractUserMessage msgParts)]
      ∧ (echoFinalArtifact taskId ("Echo: " ++ extractUserMessage msgParts)).parts
          = [textPart ("Echo: " ++ extractUserMessage msgParts)])
    ∧ ((runStreamingEcho "t2" none (some [some "a  b"]) okDeliver).log[3]?).map
        (fun s => s.result.map (fun r => r.artifacts.map Artifact.parts))
        = some (some [[textPart "Echo: a b"]])
    ∧ ((runStreamingEcho "t2" none (some [some "a  b"]) okDeliver).result.artifacts.map
        Artifact.parts) = [[textPart "Echo: a  b"]]
    ∧ ("Echo: a b" : String) ≠ "Echo: a  b" := by
  refine ⟨?_, ?_, ?_, ?_⟩
  · intro taskId gw msgParts deliver
    exact ⟨by rw [runStreamingEcho_result]; rfl, rfl⟩
  · with_unfolding_all decide
  · with_unfolding_all decide
  · with_unfolding_all decide

end A2A
